import Mathlib

/-!
Verification development for the protolink repository.

Shallow embedding of:
* `src/protolink/core/task.py` (Task state machine),
* `src/protolink/transport/http.py` (retry/backoff loop),
* `src/protolink/transport/http_transport.py` (send_message),
* `src/protolink/transport/runtime_transport.py` (in-process transport),
* `src/protolink/discovery/registry.py` (Registry),
* `src/protolink/agents/base.py` (verify_request_auth),
together with theorems settling the frozen claims about the spec.

Python `datetime.utcnow()` timestamps are passed in explicitly (`now`
parameters); ISO strings are opaque `String`s, registry instants are `Int`
seconds.  Python exceptions are modelled as `Except String` carrying the
exception message.  `Dict[str, Any]` payloads whose contents the code never
inspects are modelled as association lists of strings.
-/

namespace Protolink

abbrev StrDict (α : Type) : Type := List (String × α)

def dictGet? {α : Type} (m : StrDict α) (k : String) : Option α :=
  (m.find? (fun p => p.1 = k)).map (·.2)

def dictSet {α : Type} (m : StrDict α) (k : String) (v : α) : StrDict α :=
  if m.any (fun p => p.1 = k) then
    m.map (fun p => if p.1 = k then (k, v) else p)
  else
    m ++ [(k, v)]

def dictErase {α : Type} (m : StrDict α) (k : String) : StrDict α :=
  m.filter (fun p => ¬ p.1 = k)

theorem find?_replace_self {α : Type} (m : StrDict α) (k : String) (v : α)
    (h : m.any (fun p => p.1 = k) = true) :
    (m.map (fun p => if p.1 = k then (k, v) else p)).find? (fun p => p.1 = k)
      = some (k, v) := by
  induction m with
  | nil => simp at h
  | cons hd tl ih =>
    by_cases hk : hd.1 = k
    · rw [List.map_cons, if_pos hk]
      exact List.find?_cons_of_pos _ (by simp)
    · simp only [List.any_cons, Bool.or_eq_true, decide_eq_true_eq] at h
      have h' : tl.any (fun p => p.1 = k) = true := by
        rcases h with h | h
        · exact absurd h hk
        · exact h
      rw [List.map_cons, if_neg hk, List.find?_cons_of_neg _ (by simpa using hk)]
      exact ih h'

theorem find?_replace_ne {α : Type} (m : StrDict α) (k k' : String) (v : α)
    (h : k' ≠ k) :
    (m.map (fun p => if p.1 = k then (k, v) else p)).find? (fun p => p.1 = k')
      = m.find? (fun p => p.1 = k') := by
  induction m with
  | nil => simp
  | cons hd tl ih =>
    by_cases hk : hd.1 = k
    · have h1 : ¬ (k = k') := fun hh => h hh.symm
      have h2 : ¬ (hd.1 = k') := by rw [hk]; exact h1
      rw [List.map_cons, if_pos hk, List.find?_cons_of_neg _ (by simpa using h1),
        List.find?_cons_of_neg _ (by simpa using h2)]
      exact ih
    · by_cases hk' : hd.1 = k'
      · rw [List.map_cons, if_neg hk, List.find?_cons_of_pos _ (by simpa using hk'),
          List.find?_cons_of_pos _ (by simpa using hk')]
      · rw [List.map_cons, if_neg hk, List.find?_cons_of_neg _ (by simpa using hk'),
          List.find?_cons_of_neg _ (by simpa using hk')]
        exact ih

theorem dictGet?_dictSet_self {α : Type} (m : StrDict α) (k : String) (v : α) :
    dictGet? (dictSet m k v) k = some v := by
  unfold dictGet? dictSet
  by_cases h : m.any (fun p => p.1 = k)
  · rw [if_pos h, find?_replace_self m k v h]
    rfl
  · rw [if_neg h, List.find?_append]
    have hnone : m.find? (fun p => (p.1 = k : Bool)) = none := by
      rw [List.find?_eq_none]
      intro p hp
      simp only [decide_eq_true_eq]
      intro hpk
      exact h (List.any_eq_true.mpr ⟨p, hp, by simp [hpk]⟩)
    rw [hnone]
    simp [List.find?]

theorem dictGet?_dictSet_ne {α : Type} (m : StrDict α) (k k' : String) (v : α)
    (h : k' ≠ k) : dictGet? (dictSet m k v) k' = dictGet? m k' := by
  unfold dictGet? dictSet
  by_cases ha : m.any (fun p => p.1 = k)
  · rw [if_pos ha, find?_replace_ne m k k' v h]
  · rw [if_neg ha, List.find?_append]
    have h1 : ¬ (k = k') := fun hh => h hh.symm
    have : List.find? (fun p => (p.1 = k' : Bool)) [(k, v)] = none := by
      simp [List.find?, h1]
    rw [this, Option.or_none]

theorem dictGet?_dictErase_self {α : Type} (m : StrDict α) (k : String) :
    dictGet? (dictErase m k) k = none := by
  unfold dictGet? dictErase
  have hfind : (m.filter (fun p => ¬ p.1 = k)).find? (fun p => (p.1 = k : Bool)) = none := by
    rw [List.find?_eq_none]
    intro p hp
    have := List.of_mem_filter hp
    simpa using this
  rw [hfind]
  rfl

theorem dictGet?_dictErase_ne {α : Type} (m : StrDict α) (k k' : String)
    (h : k' ≠ k) : dictGet? (dictErase m k) k' = dictGet? m k' := by
  unfold dictGet? dictErase
  induction m with
  | nil => simp
  | cons hd tl ih =>
    by_cases hk : hd.1 = k
    · have h2 : ¬ (hd.1 = k') := by rw [hk]; exact fun hh => h hh.symm
      rw [List.filter_cons_of_neg (by simpa using hk),
        List.find?_cons_of_neg _ (by simpa using h2)]
      exact ih
    · by_cases hk' : hd.1 = k'
      · rw [List.filter_cons_of_pos (by simpa using hk),
          List.find?_cons_of_pos _ (by simpa using hk'),
          List.find?_cons_of_pos _ (by simpa using hk')]
      · rw [List.filter_cons_of_pos (by simpa using hk),
          List.find?_cons_of_neg _ (by simpa using hk'),
          List.find?_cons_of_neg _ (by simpa using hk')]
        exact ih

theorem mem_values_of_dictGet? {α : Type} (m : StrDict α) (k : String) (v : α)
    (h : dictGet? m k = some v) : v ∈ m.map Prod.snd := by
  unfold dictGet? at h
  rcases hf : m.find? (fun p => p.1 = k) with _ | p
  · rw [hf] at h; simp at h
  · rw [hf] at h
    simp only [Option.map_some', Option.some.injEq] at h
    have hmem := List.mem_of_find?_eq_some hf
    subst h
    exact List.mem_map_of_mem Prod.snd hmem

theorem values_dictSet_mem {α : Type} (m : StrDict α) (k : String) (v : α) :
    v ∈ (dictSet m k v).map Prod.snd :=
  mem_values_of_dictGet? _ k v (dictGet?_dictSet_self m k v)

/-! ## Embedding of `src/protolink/core/task.py` -/

/-- `TaskStatus` enum of `core/task.py`. -/
inductive TaskStatus
  | pending
  | running
  | completed
  | failed
  | cancelled
  deriving DecidableEq, Repr

/-- The enum's string value. -/
def TaskStatus.value : TaskStatus → String
  | .pending => "pending"
  | .running => "running"
  | .completed => "completed"
  | .failed => "failed"
  | .cancelled => "cancelled"

/-- Terminal statuses of `core/task.py` (`COMPLETED`, `FAILED`, `CANCELLED`). -/
def TaskStatus.isTerminal : TaskStatus → Bool
  | .completed => true
  | .failed => true
  | .cancelled => true
  | _ => false

/-- `TaskResult` of `core/task.py` (metrics/artifacts fields omitted: the
relevant code paths never touch them). -/
structure TaskResult where
  task_id : String
  status : TaskStatus
  output : Option (StrDict String) := none
  error : Option (StrDict String) := none
  timestamp : String
  deriving DecidableEq, Repr

/-- `Task` of `core/task.py` (lines 94-164); fields the claimed operations
never read or write (priority, dependencies, assigned_agent, ...) are kept as
opaque payload. -/
structure Task where
  id : String
  type : String
  status : TaskStatus := .pending
  parameters : StrDict String := []
  created_at : String := ""
  started_at : Option String := none
  completed_at : Option String := none
  result : Option TaskResult := none
  deriving DecidableEq, Repr

/-- `Task.start` (`core/task.py` lines 177-182): requires status `PENDING`,
sets status `RUNNING` and `started_at`; otherwise raises `ValueError`. -/
def Task.start (t : Task) (now : String) : Except String Task :=
  if t.status = .pending then
    .ok { t with status := .running, started_at := some now }
  else
    let v := t.status.value
    .error s!"Cannot start task with status {v}"

/-- `Task.complete` (`core/task.py` lines 184-204): requires status `RUNNING`,
sets status `COMPLETED`, `completed_at`, and records a `TaskResult` with
`output = result or {}`; returns the created result.  Raises `ValueError`
from any other status. -/
def Task.complete (t : Task) (result : Option (StrDict String)) (now : String) :
    Except String (Task × TaskResult) :=
  if t.status = .running then
    let r : TaskResult :=
      { task_id := t.id, status := .completed, output := some (result.getD []),
        error := none, timestamp := now }
    .ok ({ t with
            status := .completed, completed_at := some now, result := some r }, r)
  else
    let v := t.status.value
    .error s!"Cannot complete task with status {v}"

/-- `Task.fail` (`core/task.py` lines 206-231, `str` branch): requires status
`PENDING` or `RUNNING`, sets status `FAILED` and records the error message. -/
def Task.fail (t : Task) (error : String) (now : String) :
    Except String (Task × TaskResult) :=
  if t.status = .pending ∨ t.status = .running then
    let r : TaskResult :=
      { task_id := t.id, status := .failed, output := none,
        error := some [("message", error)], timestamp := now }
    .ok ({ t with
            status := .failed, completed_at := some now, result := some r }, r)
  else
    let v := t.status.value
    .error s!"Cannot fail task with status {v}"

/-- `Task.cancel` (`core/task.py` lines 233-245): requires status `PENDING`
or `RUNNING`, sets status `CANCELLED`. -/
def Task.cancel (t : Task) (now : String) : Except String (Task × TaskResult) :=
  if t.status = .pending ∨ t.status = .running then
    let r : TaskResult :=
      { task_id := t.id, status := .cancelled, output := none,
        error := none, timestamp := now }
    .ok ({ t with
            status := .cancelled, completed_at := some now, result := some r }, r)
  else
    let v := t.status.value
    .error s!"Cannot cancel task with status {v}"

/-- One of the four transition operations of `core/task.py`. -/
inductive TaskOp
  | start
  | complete (result : Option (StrDict String))
  | fail (error : String)
  | cancel
  deriving Repr

/-- Apply one transition operation, returning the mutated task or the raised
`ValueError`. -/
def Task.applyOp (t : Task) (op : TaskOp) (now : String) : Except String Task :=
  match op with
  | .start => t.start now
  | .complete r => (t.complete r now).map Prod.fst
  | .fail e => (t.fail e now).map Prod.fst
  | .cancel => (t.cancel now).map Prod.fst

/-- Run a sequence of transition attempts.  A raised `ValueError` leaves the
task unchanged (the Python methods raise before mutating `self`) and later
attempts still run. -/
def Task.runOps (t : Task) : List (TaskOp × String) → Task
  | [] => t
  | (op, now) :: rest =>
      match t.applyOp op now with
      | .ok t' => t'.runOps rest
      | .error _ => t.runOps rest

/-- The forward edges of the `core/task.py` state diagram:
pending → running, pending/running → failed, pending/running → cancelled,
running → completed. -/
def forwardStep : TaskStatus → TaskStatus → Bool
  | .pending, .running => true
  | .pending, .failed => true
  | .pending, .cancelled => true
  | .running, .completed => true
  | .running, .failed => true
  | .running, .cancelled => true
  | _, _ => false

/-! ## Task state-machine lemmas -/

theorem applyOp_ok_forwardStep (t : Task) (op : TaskOp) (now : String) (t' : Task)
    (h : t.applyOp op now = .ok t') : forwardStep t.status t'.status = true := by
  cases op with
  | start =>
    cases hs : t.status <;> simp [Task.applyOp, Task.start, hs] at h <;>
      (subst h; rfl)
  | complete r =>
    cases hs : t.status <;>
      simp [Task.applyOp, Task.complete, hs, Except.map] at h <;>
      (subst h; rfl)
  | fail e =>
    cases hs : t.status <;>
      simp [Task.applyOp, Task.fail, hs, Except.map] at h <;>
      (subst h; rfl)
  | cancel =>
    cases hs : t.status <;>
      simp [Task.applyOp, Task.cancel, hs, Except.map] at h <;>
      (subst h; rfl)

theorem applyOp_terminal_error (t : Task) (op : TaskOp) (now : String)
    (h : t.status.isTerminal = true) : ∃ e, t.applyOp op now = .error e := by
  have h1 : ¬ t.status = TaskStatus.pending := by
    intro hc; rw [hc] at h; exact absurd h (by decide)
  have h2 : ¬ t.status = TaskStatus.running := by
    intro hc; rw [hc] at h; exact absurd h (by decide)
  cases op with
  | start =>
    exact ⟨_, by simp only [Task.applyOp, Task.start]; rw [if_neg h1]⟩
  | complete r =>
    exact ⟨_, by simp only [Task.applyOp, Task.complete]; rw [if_neg h2]; rfl⟩
  | fail e =>
    exact ⟨_, by simp only [Task.applyOp, Task.fail]; rw [if_neg (not_or.mpr ⟨h1, h2⟩)]; rfl⟩
  | cancel =>
    exact ⟨_, by simp only [Task.applyOp, Task.cancel]; rw [if_neg (not_or.mpr ⟨h1, h2⟩)]; rfl⟩

theorem runOps_terminal_fixed (t : Task) (h : t.status.isTerminal = true)
    (ops : List (TaskOp × String)) : t.runOps ops = t := by
  induction ops with
  | nil => rfl
  | cons p rest ih =>
    obtain ⟨e, he⟩ := applyOp_terminal_error t p.1 p.2 h
    simp only [Task.runOps, he]
    exact ih

/-- C1: every `start`/`complete`/`fail`/`cancel` call on a `core/task.py`
`Task` either performs one of the forward transitions of
pending (submitted) → running (working) → \{completed, failed, cancelled\}
or raises `ValueError` leaving the task unchanged, and from a terminal
status every transition attempt raises and every sequence of attempts
leaves the task unchanged. -/
theorem task_state_forward_only (t : Task) (op : TaskOp) (now : String) :
    (∀ t', t.applyOp op now = .ok t' → forwardStep t.status t'.status = true) ∧
    (t.status.isTerminal = true → ∃ e, t.applyOp op now = .error e) ∧
    (∀ ops, t.status.isTerminal = true → t.runOps ops = t) :=
  ⟨fun t' h => applyOp_ok_forwardStep t op now t' h,
   fun h => applyOp_terminal_error t op now h,
   fun ops h => runOps_terminal_fixed t h ops⟩

/-- A concrete completed task. -/
def doneTask : Task := { id := "t1", type := "demo", status := .completed }

/-- Witness for C1: a completed task rejects a whole sequence of transition
attempts unchanged. -/
theorem task_state_forward_only_witness :
    doneTask.runOps [(TaskOp.start, "s1"), (TaskOp.cancel, "s2")] = doneTask :=
  (task_state_forward_only doneTask .start "s0").2.2
    [(TaskOp.start, "s1"), (TaskOp.cancel, "s2")] (by decide)

/-- A concrete freshly constructed task; its status defaults to `PENDING`. -/
def pendingTask : Task := { id := "t2", type := "demo" }

/-- C2 counterexample: `complete` on a task in the submitted (`PENDING`)
state does not succeed — `core/task.py` only permits `complete` from
`RUNNING`, so it raises `ValueError`, refuting the claim that `complete`
succeeds from `submitted`. -/
theorem complete_on_submitted_counterexample :
    pendingTask.status = TaskStatus.pending ∧
    pendingTask.complete none "2024-01-01T00:00:00" =
      .error "Cannot complete task with status pending" := by
  exact ⟨rfl, rfl⟩

/-- C2 (amended): `complete` on a task whose status is `RUNNING` (working)
succeeds — status becomes `COMPLETED`, the result is recorded and returned
for chaining — while `complete` on a `PENDING` (submitted) task or on a task
in a terminal state raises an invalid-state `ValueError`. -/
theorem task_complete_amended :
    (∀ (t : Task) (res : Option (StrDict String)) (now : String),
      t.status = .running →
      t.complete res now =
        .ok ({ t with
                status := .completed, completed_at := some now,
                result := some { task_id := t.id, status := .completed,
                                 output := some (res.getD []), error := none,
                                 timestamp := now } },
             { task_id := t.id, status := .completed, output := some (res.getD []),
               error := none, timestamp := now })) ∧
    (∀ (t : Task) (res : Option (StrDict String)) (now : String),
      t.status ≠ .running → ∃ e, t.complete res now = .error e) := by
  constructor
  · intro t res now h
    simp [Task.complete, h]
  · intro t res now h
    exact ⟨_, by simp only [Task.complete]; rw [if_neg h]⟩

/-- A concrete running task. -/
def runningTask : Task := { id := "t3", type := "demo", status := .running }

/-- Witness for C2 (amended): evaluation at a running and a pending task. -/
theorem task_complete_amended_witness :
    runningTask.complete (some [("k", "v")]) "T1" =
      .ok ({ runningTask with
              status := .completed, completed_at := some "T1",
              result := some { task_id := runningTask.id, status := .completed,
                               output := some ((some [("k", "v")]).getD []),
                               error := none, timestamp := "T1" } },
           { task_id := runningTask.id, status := .completed,
             output := some ((some [("k", "v")]).getD []), error := none,
             timestamp := "T1" }) ∧
    (∃ e, pendingTask.complete none "T1" = .error e) :=
  ⟨task_complete_amended.1 runningTask (some [("k", "v")]) "T1" rfl,
   task_complete_amended.2 pendingTask none "T1" (by decide)⟩

/-! ## Embedding of `src/protolink/transport/http.py` (retry loop) -/

/-- Retry fields of `TransportConfig` (`transport/base.py` lines 35-41);
fields the retry loop never reads are omitted.  `reconnect_delay` is an
exact rational standing in for the Python float. -/
structure TransportConfig where
  reconnect_attempts : Nat := 3
  reconnect_delay : ℚ := 1

/-- Outcome of one HTTP POST attempt inside `_send_message_impl`
(`transport/http.py` lines 117-137): an HTTP response with status code and
body, or one of the three caught exception classes
(`asyncio.TimeoutError`, `aiohttp.ClientError`, anything else). -/
inductive AttemptOutcome
  | response (status : Nat) (body : String)
  | timeoutErr (msg : String)
  | clientErr (msg : String)
  | otherErr (msg : String)
  deriving DecidableEq, Repr

/-- One iteration of the retry-loop body (`transport/http.py` lines
117-148).  A response with status < 400 is returned.  A status ≥ 400 raises
`MessageDeliveryError(f"HTTP {status}: {text}")` inside the `try`, which the
final `except Exception` clause catches and records as
`"Unexpected error: ..."` (the session is also built with
`raise_for_status=True`, under which the same 4xx would surface as an
`aiohttp.ClientError` — on either reading the 4xx is caught and retried).
The three `except` clauses each record a `last_error`. -/
def attemptStep : AttemptOutcome → Except String String
  | .response status body =>
      if status ≥ 400 then
        .error s!"Unexpected error: HTTP {status}: {body}"
      else
        .ok body
  | .timeoutErr msg => .error s!"Request timed out: {msg}"
  | .clientErr msg => .error s!"HTTP client error: {msg}"
  | .otherErr msg => .error s!"Unexpected error: {msg}"

/-- Observable outcome of `_send_message_impl`: the returned body or raised
error, the number of attempts made, and the backoff sleeps performed. -/
structure SendOutcome where
  result : Except String String
  attempts : Nat
  sleeps : List ℚ

/-- The retry loop `for attempt in range(reconnect_attempts)` of
`_send_message_impl` (`transport/http.py` lines 114-156): `remaining`
iterations are left, `made` attempts were already made (so `made` is the
current value of `attempt`), `lastError` is the recorded `last_error`.
Between failed attempts — except after the final one — the loop sleeps
`min(reconnect_delay * 2 ** attempt, 30)`.  When the loop ends,
`last_error or MessageDeliveryError("Failed to send message")` is raised. -/
def sendAttempts (backend : Nat → AttemptOutcome) (delay : ℚ) :
    Nat → Nat → Option String → SendOutcome
  | 0, made, lastError =>
      { result := .error (lastError.getD "Failed to send message"),
        attempts := made, sleeps := [] }
  | remaining + 1, made, lastError =>
      match attemptStep (backend made) with
      | .ok body => { result := .ok body, attempts := made + 1, sleeps := [] }
      | .error e =>
          let rest := sendAttempts backend delay remaining (made + 1) (some e)
          if remaining = 0 then
            { result := rest.result, attempts := rest.attempts, sleeps := [] }
          else
            { result := rest.result, attempts := rest.attempts,
              sleeps := min (delay * 2 ^ made) 30 :: rest.sleeps }

/-- `HTTPTransport._send_message_impl` retry semantics, as a function of the
per-attempt backend behaviour. -/
def send_message_impl (config : TransportConfig)
    (backend : Nat → AttemptOutcome) : SendOutcome :=
  sendAttempts backend config.reconnect_delay config.reconnect_attempts 0 none

theorem sendAttempts_succ_ok (backend : Nat → AttemptOutcome) (delay : ℚ)
    (remaining made : Nat) (le : Option String) (b : String)
    (h : attemptStep (backend made) = .ok b) :
    sendAttempts backend delay (remaining + 1) made le =
      { result := .ok b, attempts := made + 1, sleeps := [] } := by
  have hstep : sendAttempts backend delay (remaining + 1) made le =
      match attemptStep (backend made) with
      | .ok body => { result := .ok body, attempts := made + 1, sleeps := [] }
      | .error e =>
          let rest := sendAttempts backend delay remaining (made + 1) (some e)
          if remaining = 0 then
            { result := rest.result, attempts := rest.attempts, sleeps := [] }
          else
            { result := rest.result, attempts := rest.attempts,
              sleeps := min (delay * 2 ^ made) 30 :: rest.sleeps } := rfl
  rw [hstep, h]

theorem sendAttempts_succ_error (backend : Nat → AttemptOutcome) (delay : ℚ)
    (remaining made : Nat) (le : Option String) (e : String)
    (h : attemptStep (backend made) = .error e) :
    sendAttempts backend delay (remaining + 1) made le =
      (if remaining = 0 then
        { result := (sendAttempts backend delay remaining (made + 1) (some e)).result,
          attempts := (sendAttempts backend delay remaining (made + 1) (some e)).attempts,
          sleeps := [] }
       else
        { result := (sendAttempts backend delay remaining (made + 1) (some e)).result,
          attempts := (sendAttempts backend delay remaining (made + 1) (some e)).attempts,
          sleeps := min (delay * 2 ^ made) 30 ::
            (sendAttempts backend delay remaining (made + 1) (some e)).sleeps }) := by
  have hstep : sendAttempts backend delay (remaining + 1) made le =
      match attemptStep (backend made) with
      | .ok body => { result := .ok body, attempts := made + 1, sleeps := [] }
      | .error e =>
          let rest := sendAttempts backend delay remaining (made + 1) (some e)
          if remaining = 0 then
            { result := rest.result, attempts := rest.attempts, sleeps := [] }
          else
            { result := rest.result, attempts := rest.attempts,
              sleeps := min (delay * 2 ^ made) 30 :: rest.sleeps } := rfl
  rw [hstep, h]

theorem sendAttempts_ok (backend : Nat → AttemptOutcome) (delay : ℚ) :
    ∀ (k rem made : Nat) (le : Option String) (b : String),
      k < rem →
      (∀ i, i < k → ∃ e, attemptStep (backend (made + i)) = .error e) →
      attemptStep (backend (made + k)) = .ok b →
      sendAttempts backend delay rem made le =
        { result := .ok b, attempts := made + k + 1,
          sleeps := (List.range k).map (fun i => min (delay * 2 ^ (made + i)) 30) } := by
  intro k
  induction k with
  | zero =>
    intro rem made le b hlt _ hok
    match rem, hlt with
    | r + 1, _ =>
      simp only [Nat.add_zero] at hok
      rw [sendAttempts_succ_ok backend delay r made le b hok]
      simp
  | succ k ih =>
    intro rem made le b hlt hfail hok
    match rem, hlt with
    | r + 1, _ =>
      have hr : k < r := by omega
      obtain ⟨e0, he0⟩ := hfail 0 (by omega)
      simp only [Nat.add_zero] at he0
      have hfail' : ∀ i, i < k → ∃ e, attemptStep (backend (made + 1 + i)) = .error e := by
        intro i hi
        obtain ⟨e, he⟩ := hfail (i + 1) (by omega)
        exact ⟨e, by rw [show made + 1 + i = made + (i + 1) by omega]; exact he⟩
      have hok' : attemptStep (backend (made + 1 + k)) = .ok b := by
        rw [show made + 1 + k = made + (k + 1) by omega]; exact hok
      have hrest := ih r (made + 1) (some e0) b hr hfail' hok'
      have hrne : ¬ r = 0 := by omega
      rw [sendAttempts_succ_error backend delay r made le e0 he0, if_neg hrne, hrest]
      simp only [SendOutcome.mk.injEq, true_and]
      refine ⟨by omega, ?_⟩
      simp only [List.range_succ_eq_map, List.map_cons, List.map_map, Nat.add_zero]
      congr 1
      apply List.map_congr_left
      intro i _
      simp only [Function.comp_apply, Nat.succ_eq_add_one]
      rw [show made + 1 + i = made + (i + 1) by omega]

theorem sendAttempts_all_fail (backend : Nat → AttemptOutcome) (delay : ℚ) :
    ∀ (rem made : Nat) (le : Option String) (e : String),
      0 < rem →
      (∀ i, i < rem → ∃ e', attemptStep (backend (made + i)) = .error e') →
      attemptStep (backend (made + (rem - 1))) = .error e →
      sendAttempts backend delay rem made le =
        { result := .error e, attempts := made + rem,
          sleeps := (List.range (rem - 1)).map (fun i => min (delay * 2 ^ (made + i)) 30) } := by
  intro rem
  induction rem with
  | zero => intro made le e h; omega
  | succ r ih =>
    intro made le e _ hfail hlast
    match r, hfail, hlast, ih with
    | 0, hfail, hlast, _ =>
      rw [show (0 : Nat) + 1 - 1 = 0 from rfl, Nat.add_zero] at hlast
      rw [sendAttempts_succ_error backend delay 0 made le e hlast, if_pos rfl]
      norm_num [sendAttempts]
    | r' + 1, hfail, hlast, ih =>
      obtain ⟨e0, he0⟩ := hfail 0 (by omega)
      simp only [Nat.add_zero] at he0
      have hfail' : ∀ i, i < r' + 1 → ∃ e', attemptStep (backend (made + 1 + i)) = .error e' := by
        intro i hi
        obtain ⟨e', he'⟩ := hfail (i + 1) (by omega)
        exact ⟨e', by rw [show made + 1 + i = made + (i + 1) by omega]; exact he'⟩
      have hlast' : attemptStep (backend (made + 1 + (r' + 1 - 1))) = .error e := by
        rw [show made + 1 + (r' + 1 - 1) = made + (r' + 1 + 1 - 1) by omega]
        exact hlast
      have hrest := ih (made + 1) (some e0) e (by omega) hfail' hlast'
      rw [sendAttempts_succ_error backend delay (r' + 1) made le e0 he0,
        if_neg (by omega : ¬ r' + 1 = 0), hrest]
      simp only [SendOutcome.mk.injEq, true_and]
      refine ⟨by omega, ?_⟩
      rw [show r' + 1 + 1 - 1 = (r' + 1 - 1) + 1 by omega]
      simp only [List.range_succ_eq_map, List.map_cons, List.map_map, Nat.add_zero]
      congr 1
      apply List.map_congr_left
      intro i _
      simp only [Function.comp_apply, Nat.succ_eq_add_one]
      rw [show made + 1 + i = made + (i + 1) by omega]

/-- C3: for a transport configured with `reconnect_attempts = n` and
`reconnect_delay = d`, a backend failing on the first `k < n` attempts and
succeeding on attempt `k` returns the success after exactly `k + 1`
attempts, sleeping `min(d * 2 ** attempt, 30)` between failed attempts; a
backend failing on every attempt makes exactly `n` attempts and then raises
the recorded last error. -/
theorem http_retry_behavior (n : Nat) (d : ℚ) (backend : Nat → AttemptOutcome) :
    (∀ (k : Nat) (b : String), k < n →
      (∀ i, i < k → ∃ e, attemptStep (backend i) = .error e) →
      attemptStep (backend k) = .ok b →
      send_message_impl ⟨n, d⟩ backend =
        { result := .ok b, attempts := k + 1,
          sleeps := (List.range k).map (fun i => min (d * 2 ^ i) 30) }) ∧
    (∀ (e : String), 0 < n →
      (∀ i, i < n → ∃ e', attemptStep (backend i) = .error e') →
      attemptStep (backend (n - 1)) = .error e →
      send_message_impl ⟨n, d⟩ backend =
        { result := .error e, attempts := n,
          sleeps := (List.range (n - 1)).map (fun i => min (d * 2 ^ i) 30) }) := by
  constructor
  · intro k b hlt hfail hok
    have h := sendAttempts_ok backend d k n 0 none b hlt
      (by intro i hi; simpa using hfail i hi) (by simpa using hok)
    simpa [send_message_impl] using h
  · intro e hpos hfail hlast
    have h := sendAttempts_all_fail backend d n 0 none e hpos
      (by intro i hi; simpa using hfail i hi) (by simpa using hlast)
    simpa [send_message_impl] using h

/-- A backend that times out twice, then answers HTTP 200. -/
def backendFlaky : Nat → AttemptOutcome :=
  fun i => if i < 2 then .timeoutErr "t" else .response 200 "done"

/-- A backend that times out on every attempt. -/
def backendDown : Nat → AttemptOutcome := fun _ => .timeoutErr "t"

/-- Witness for C3: three configured attempts against the flaky backend
succeed on the third attempt after sleeping 1s then 2s; against the dead
backend, exactly three attempts are made and the last timeout error is
raised. -/
theorem http_retry_behavior_witness :
    send_message_impl ⟨3, 1⟩ backendFlaky =
      { result := .ok "done", attempts := 3, sleeps := [1, 2] } ∧
    send_message_impl ⟨3, 1⟩ backendDown =
      { result := .error "Request timed out: t", attempts := 3, sleeps := [1, 2] } := by
  constructor
  · have hf : ∀ i, i < 2 → ∃ e, attemptStep (backendFlaky i) = .error e := by
      intro i hi
      interval_cases i <;> exact ⟨_, rfl⟩
    have h := (http_retry_behavior 3 1 backendFlaky).1 2 "done" (by decide) hf rfl
    rw [h]
    norm_num [List.range_succ]
  · have hf : ∀ i, i < 3 → ∃ e', attemptStep (backendDown i) = .error e' :=
      fun i _ => ⟨_, rfl⟩
    have h := (http_retry_behavior 3 1 backendDown).2 "Request timed out: t"
      (by decide) hf rfl
    rw [h]
    norm_num [List.range_succ]

/-- A backend answering HTTP 400 on the first attempt and HTTP 200 on every
later one. -/
def backend4xx : Nat → AttemptOutcome :=
  fun i => if i = 0 then .response 400 "bad request" else .response 200 "ok"

/-- C4: evaluation at the failing input.  With 3 configured attempts and a
backend answering HTTP 400 on the first attempt, `_send_message_impl`
retries after the 4xx (its own `MessageDeliveryError` raised for
`status >= 400` is swallowed by the `except Exception` clause) and returns
the second attempt's success — the 4xx application error is not surfaced
after the first attempt as claimed. -/
theorem http_4xx_retried :
    send_message_impl ⟨3, 1⟩ backend4xx =
      { result := .ok "ok", attempts := 2, sleeps := [1] } := by
  norm_num [send_message_impl, sendAttempts, attemptStep, backend4xx]

/-! ## Embedding of `src/protolink/discovery/registry.py` -/

/-- `AgentCapabilities` of `core/agent.py` (lines 26-35). -/
structure AgentCapabilities where
  can_process : List String := []
  can_provide : List String := []
  deriving DecidableEq, Repr

/-- `AgentInfo` of `core/agent.py` (lines 37-44). -/
structure AgentInfo where
  agent_id : String
  name : String
  endpoint : String
  capabilities : AgentCapabilities
  metadata : StrDict String := []
  deriving DecidableEq, Repr

/-- `RegisteredAgent` of `discovery/registry.py` (lines 35-40); the
`ws_connection` I/O handle is omitted — no claimed operation reads it.
`last_seen` is the heartbeat instant in seconds. -/
structure RegisteredAgent where
  info : AgentInfo
  last_seen : Int
  deriving DecidableEq, Repr

/-- `RegistryConfig` of `discovery/registry.py` (lines 26-32); host/port/debug
serve only the HTTP server and are omitted. -/
structure RegistryConfig where
  heartbeat_timeout : Int := 60
  cleanup_interval : Int := 300
  deriving DecidableEq, Repr

/-- The `Registry` state of `discovery/registry.py`: config plus the
`agents` dict keyed by `agent_id`. -/
structure Registry where
  config : RegistryConfig := {}
  agents : StrDict RegisteredAgent := []
  deriving DecidableEq, Repr

/-- `Registry.register_agent` (`discovery/registry.py` lines 198-236): raises
`ValueError` when `agent_id` is already present, otherwise inserts a fresh
`RegisteredAgent` whose `last_seen` defaults to now. -/
def Registry.register_agent (r : Registry) (agent_id name endpoint : String)
    (capabilities : AgentCapabilities) (now : Int) : Except String Registry :=
  if (dictGet? r.agents agent_id).isSome then
    .error s!"Agent with ID {agent_id} is already registered"
  else
    .ok { r with
           agents := dictSet r.agents agent_id
             { info := { agent_id := agent_id, name := name, endpoint := endpoint,
                         capabilities := capabilities },
               last_seen := now } }

/-- Bool test: is `needle` a contiguous sublist of `hay`? -/
def subList : List Char → List Char → Bool
  | needle, [] => needle.isEmpty
  | needle, c :: rest => needle.isPrefixOf (c :: rest) || subList needle rest

/-- Python `needle.lower() in hay.lower()`. -/
def strContains (hay needle : String) : Bool :=
  subList needle.toLower.toList hay.toLower.toList

/-- `Registry._find_agents` (`discovery/registry.py` lines 262-292): keeps the
entries whose heartbeat age does not exceed `heartbeat_timeout`, then applies
the name filter (`name` truthy and case-folded substring) and the
capabilities filter (`capabilities` truthy and every capability in
`can_process` or `can_provide`). -/
def Registry.find_agents (r : Registry) (capabilities : Option (List String))
    (name : Option String) (now : Int) : List RegisteredAgent :=
  (r.agents.map Prod.snd).filter (fun a =>
    decide (now - a.last_seen ≤ r.config.heartbeat_timeout)
    && (match name with
        | none => true
        | some nm => if nm = "" then true else strContains a.info.name nm)
    && (match capabilities with
        | none => true
        | some caps =>
            if caps = [] then true
            else caps.all (fun cap =>
              a.info.capabilities.can_process.contains cap
              || a.info.capabilities.can_provide.contains cap)))

/-- `Registry.discover_agents` (`discovery/registry.py` lines 238-260),
projected to the returned agent infos. -/
def Registry.discover_agents (r : Registry) (capabilities : Option (List String))
    (name : Option String) (now : Int) : List AgentInfo :=
  (r.find_agents capabilities name now).map (·.info)

/-- `Registry.heartbeat` (`discovery/registry.py` lines 294-307): raises
`ValueError` for an unknown `agent_id`, otherwise sets `last_seen := now`. -/
def Registry.heartbeat (r : Registry) (agent_id : String) (now : Int) :
    Except String Registry :=
  match dictGet? r.agents agent_id with
  | none => .error s!"Agent {agent_id} is not registered"
  | some a =>
      .ok { r with agents := dictSet r.agents agent_id { a with last_seen := now } }

theorem mem_find_agents_no_filter (r : Registry) (now : Int) (a : RegisteredAgent) :
    a ∈ r.find_agents none none now ↔
      a ∈ r.agents.map Prod.snd ∧ now - a.last_seen ≤ r.config.heartbeat_timeout := by
  unfold Registry.find_agents
  rw [List.mem_filter]
  simp

/-- A concrete registry entry. -/
def demoEntry : RegisteredAgent :=
  { info := { agent_id := "a1", name := "Agent One", endpoint := "http://a1",
              capabilities := {} },
    last_seen := 0 }

/-- A registry already holding `demoEntry` under id `"a1"`. -/
def regWithA1 : Registry := { agents := [("a1", demoEntry)] }

/-- C5 counterexample: with id `"a1"` already present, `register_agent` is an
error rather than an upsert — `discovery/registry.py` raises
`ValueError("... is already registered")` and replaces nothing. -/
theorem register_upsert_counterexample :
    (dictGet? regWithA1.agents "a1").isSome = true ∧
    regWithA1.register_agent "a1" "Agent One v2" "http://a1" {} 10 =
      .error "Agent with ID a1 is already registered" := ⟨rfl, rfl⟩

/-- C5 (amended): `register_agent` is insert-only: on a fresh key it succeeds
and stores the new descriptor with `last_heartbeat` (`last_seen`) set to now;
on a key that is already present it fails with an already-registered
`ValueError` (no replacement or merge happens). -/
theorem register_agent_amended :
    (∀ (r : Registry) (id nm ep : String) (caps : AgentCapabilities) (now : Int),
      dictGet? r.agents id = none →
      ∃ r', r.register_agent id nm ep caps now = .ok r' ∧
        dictGet? r'.agents id =
          some { info := { agent_id := id, name := nm, endpoint := ep,
                           capabilities := caps },
                 last_seen := now }) ∧
    (∀ (r : Registry) (id nm ep : String) (caps : AgentCapabilities) (now : Int),
      (dictGet? r.agents id).isSome = true →
      r.register_agent id nm ep caps now =
        .error s!"Agent with ID {id} is already registered") := by
  constructor
  · intro r id nm ep caps now h
    refine ⟨{ r with
               agents := dictSet r.agents id
                 { info := { agent_id := id, name := nm, endpoint := ep,
                             capabilities := caps },
                   last_seen := now } }, ?_, ?_⟩
    · unfold Registry.register_agent
      rw [if_neg (by rw [h]; simp)]
    · exact dictGet?_dictSet_self r.agents id _
  · intro r id nm ep caps now h
    unfold Registry.register_agent
    rw [if_pos h]

/-- Witness for C5 (amended): a fresh registration succeeds and is
retrievable with the new heartbeat; re-registering `"a1"` errors. -/
theorem register_agent_amended_witness :
    (∃ r', Registry.register_agent {} "a1" "A" "http://a" {} 5 = .ok r' ∧
      dictGet? r'.agents "a1" =
        some { info := { agent_id := "a1", name := "A", endpoint := "http://a",
                         capabilities := {} },
               last_seen := 5 }) ∧
    regWithA1.register_agent "a1" "B" "http://b" {} 9 =
      .error "Agent with ID a1 is already registered" :=
  ⟨register_agent_amended.1 {} "a1" "A" "http://a" {} 5 rfl,
   register_agent_amended.2 regWithA1 "a1" "B" "http://b" {} 9 rfl⟩

/-- C6: unfiltered `_find_agents` returns exactly the registered entries
whose `last_seen` age is within `heartbeat_timeout` (read-time staleness,
independent of the eviction sweep); `heartbeat` on an absent id fails with a
not-registered `ValueError`; `heartbeat` on a present id sets that entry's
`last_seen` to now, and an entry heartbeated within the TTL window is in the
unfiltered `_find_agents` result. -/
theorem registry_ttl_and_heartbeat :
    (∀ (r : Registry) (now : Int) (a : RegisteredAgent),
      a ∈ r.find_agents none none now ↔
        a ∈ r.agents.map Prod.snd ∧ now - a.last_seen ≤ r.config.heartbeat_timeout) ∧
    (∀ (r : Registry) (id : String) (now : Int),
      dictGet? r.agents id = none →
      r.heartbeat id now = .error s!"Agent {id} is not registered") ∧
    (∀ (r : Registry) (id : String) (a : RegisteredAgent) (now : Int),
      dictGet? r.agents id = some a →
      r.heartbeat id now =
        .ok { r with agents := dictSet r.agents id { a with last_seen := now } }) ∧
    (∀ (r : Registry) (id : String) (a : RegisteredAgent) (now now' : Int)
      (r' : Registry),
      dictGet? r.agents id = some a →
      r.heartbeat id now = .ok r' →
      now' - now ≤ r.config.heartbeat_timeout →
      { a with last_seen := now } ∈ r'.find_agents none none now') := by
  refine ⟨mem_find_agents_no_filter, ?_, ?_, ?_⟩
  · intro r id now h
    unfold Registry.heartbeat
    rw [h]
  · intro r id a now h
    unfold Registry.heartbeat
    rw [h]
  · intro r id a now now' r' hget hhb httl
    unfold Registry.heartbeat at hhb
    rw [hget] at hhb
    obtain rfl := Except.ok.inj hhb
    refine (mem_find_agents_no_filter _ now' _).mpr ⟨?_, ?_⟩
    · exact values_dictSet_mem r.agents id _
    · simpa using httl

/-- Witness for C6: concrete evaluation on `regWithA1` with TTL 60. -/
theorem registry_ttl_and_heartbeat_witness :
    demoEntry ∈ regWithA1.find_agents none none 50 ∧
    Registry.heartbeat regWithA1 "zz" 5 = .error "Agent zz is not registered" ∧
    { demoEntry with last_seen := 100 } ∈
      Registry.find_agents
        { regWithA1 with
           agents := dictSet regWithA1.agents "a1" { demoEntry with last_seen := 100 } }
        none none 150 := by
  refine ⟨?_, ?_, ?_⟩
  · exact (registry_ttl_and_heartbeat.1 regWithA1 50 demoEntry).mpr
      ⟨by decide, by decide⟩
  · exact registry_ttl_and_heartbeat.2.1 regWithA1 "zz" 5 rfl
  · exact registry_ttl_and_heartbeat.2.2.2 regWithA1 "a1" demoEntry 100 150
      { regWithA1 with
         agents := dictSet regWithA1.agents "a1" { demoEntry with last_seen := 100 } }
      rfl rfl (by decide)

/-! ## Embedding of `src/protolink/agents/base.py` (AuthGate) -/

/-- `AuthContext` as read by `verify_request_auth`.  Modelled from the spec:
the `AuthContext` class (`{principal_id, scopes, expires_at?}`) is not under
`src/` — only its callers are; the call site reads only `is_expired()`,
modelled as a boolean field (true when the reported expiry is in the past). -/
structure AuthContext where
  principal_id : String := ""
  scopes : List String := []
  is_expired : Bool := false
  deriving DecidableEq, Repr

/-- The external `AuthProvider` collaborator (spec section 6): `authenticate`
returns a context or throws; `authorize` returns a boolean or throws. -/
structure AuthProvider where
  authenticate : String → Except String AuthContext
  authorize : AuthContext → String → Except String Bool

/-- `Agent.verify_request_auth` (`agents/base.py` lines 134-179), as a
function of the configured provider, the credential header, the requested
skill and the current `_auth_context` cache; returns the verified context (or
none) together with the updated cache, or the raised `PermissionError`
message.  The Python guard `if not auth_header` fires for both `None` and the
empty string. -/
def verify_request_auth (auth_provider : Option AuthProvider)
    (auth_header : Option String) (skill : String)
    (cache : Option AuthContext) :
    Except String (Option AuthContext × Option AuthContext) :=
  match auth_provider with
  | none => .ok (none, cache)
  | some provider =>
    if auth_header.getD "" = "" then
      .error "Authentication required but no credentials provided"
    else
      let h := auth_header.getD ""
      if ¬ "Bearer ".data.isPrefixOf h.data then
        .error "Invalid authorization header format"
      else
        let token := String.mk (h.data.drop 7)
        match provider.authenticate token with
        | .error e => .error s!"Authentication failed: {e}"
        | .ok context =>
          if context.is_expired then
            .error "Token expired"
          else if skill ≠ "default" then
            match provider.authorize context skill with
            | .ok true => .ok (some context, some context)
            | .ok false =>
                .error s!"Authorization failed: Not authorized for skill: {skill}"
            | .error e => .error s!"Authorization failed: {e}"
          else
            .ok (some context, some context)

/-- C7: with no provider `verify_request_auth` always returns null without
error; with a provider it fails in precedence order on a missing header, a
header without the `Bearer ` shape, a throwing `authenticate`, an expired
context, and — only when the skill differs from `"default"` — a false or
throwing `authorize`; on success it caches the context and returns it. -/
theorem verify_request_auth_cases :
    (∀ (h : Option String) (skill : String) (cache : Option AuthContext),
      verify_request_auth none h skill cache = .ok (none, cache)) ∧
    (∀ (p : AuthProvider) (h : Option String) (skill : String)
        (cache : Option AuthContext),
      h.getD "" = "" →
      verify_request_auth (some p) h skill cache =
        .error "Authentication required but no credentials provided") ∧
    (∀ (p : AuthProvider) (h skill : String) (cache : Option AuthContext),
      h ≠ "" → "Bearer ".data.isPrefixOf h.data = false →
      verify_request_auth (some p) (some h) skill cache =
        .error "Invalid authorization header format") ∧
    (∀ (p : AuthProvider) (h skill : String) (cache : Option AuthContext)
        (e : String),
      h ≠ "" → "Bearer ".data.isPrefixOf h.data = true →
      p.authenticate (String.mk (h.data.drop 7)) = .error e →
      verify_request_auth (some p) (some h) skill cache =
        .error s!"Authentication failed: {e}") ∧
    (∀ (p : AuthProvider) (h skill : String) (cache : Option AuthContext)
        (ctx : AuthContext),
      h ≠ "" → "Bearer ".data.isPrefixOf h.data = true →
      p.authenticate (String.mk (h.data.drop 7)) = .ok ctx → ctx.is_expired = true →
      verify_request_auth (some p) (some h) skill cache = .error "Token expired") ∧
    (∀ (p : AuthProvider) (h skill : String) (cache : Option AuthContext)
        (ctx : AuthContext),
      h ≠ "" → "Bearer ".data.isPrefixOf h.data = true →
      p.authenticate (String.mk (h.data.drop 7)) = .ok ctx → ctx.is_expired = false →
      skill ≠ "default" → p.authorize ctx skill = .ok false →
      verify_request_auth (some p) (some h) skill cache =
        .error s!"Authorization failed: Not authorized for skill: {skill}") ∧
    (∀ (p : AuthProvider) (h skill : String) (cache : Option AuthContext)
        (ctx : AuthContext) (e : String),
      h ≠ "" → "Bearer ".data.isPrefixOf h.data = true →
      p.authenticate (String.mk (h.data.drop 7)) = .ok ctx → ctx.is_expired = false →
      skill ≠ "default" → p.authorize ctx skill = .error e →
      verify_request_auth (some p) (some h) skill cache =
        .error s!"Authorization failed: {e}") ∧
    (∀ (p : AuthProvider) (h skill : String) (cache : Option AuthContext)
        (ctx : AuthContext),
      h ≠ "" → "Bearer ".data.isPrefixOf h.data = true →
      p.authenticate (String.mk (h.data.drop 7)) = .ok ctx → ctx.is_expired = false →
      skill ≠ "default" → p.authorize ctx skill = .ok true →
      verify_request_auth (some p) (some h) skill cache = .ok (some ctx, some ctx)) ∧
    (∀ (p : AuthProvider) (h : String) (cache : Option AuthContext)
        (ctx : AuthContext),
      h ≠ "" → "Bearer ".data.isPrefixOf h.data = true →
      p.authenticate (String.mk (h.data.drop 7)) = .ok ctx → ctx.is_expired = false →
      verify_request_auth (some p) (some h) "default" cache = .ok (some ctx, some ctx)) := by
  refine ⟨?_, ?_, ?_, ?_, ?_, ?_, ?_, ?_, ?_⟩
  · intro h skill cache
    rfl
  · intro p h skill cache hempty
    simp only [verify_request_auth]
    rw [if_pos hempty]
  · intro p h skill cache hne hsw
    simp only [verify_request_auth]
    rw [if_neg (by simpa using hne), if_pos (by simp [hsw])]
  · intro p h skill cache e hne hsw hauth
    simp only [verify_request_auth]
    rw [if_neg (by simpa using hne), if_neg (by simp [hsw])]
    simp only [Option.getD_some, hauth]
  · intro p h skill cache ctx hne hsw hauth hexp
    simp only [verify_request_auth]
    rw [if_neg (by simpa using hne), if_neg (by simp [hsw])]
    simp only [Option.getD_some, hauth, hexp, if_true]
  · intro p h skill cache ctx hne hsw hauth hexp hskill hz
    simp only [verify_request_auth]
    rw [if_neg (by simpa using hne), if_neg (by simp [hsw])]
    simp only [Option.getD_some, hauth, hexp, Bool.false_eq_true, if_false, hz]
    rw [if_pos hskill]
  · intro p h skill cache ctx e hne hsw hauth hexp hskill hz
    simp only [verify_request_auth]
    rw [if_neg (by simpa using hne), if_neg (by simp [hsw])]
    simp only [Option.getD_some, hauth, hexp, Bool.false_eq_true, if_false, hz]
    rw [if_pos hskill]
  · intro p h skill cache ctx hne hsw hauth hexp hskill hz
    simp only [verify_request_auth]
    rw [if_neg (by simpa using hne), if_neg (by simp [hsw])]
    simp only [Option.getD_some, hauth, hexp, Bool.false_eq_true, if_false, hz]
    rw [if_pos hskill]
  · intro p h cache ctx hne hsw hauth hexp
    simp only [verify_request_auth]
    rw [if_neg (by simpa using hne), if_neg (by simp [hsw])]
    simp only [Option.getD_some, hauth, hexp, Bool.false_eq_true, if_false]
    rw [if_neg (by simp)]

/-- A concrete provider: token "good" authenticates to a live context with
scope `skill:analyze`, token "stale" to an expired context; authorization
tests scope membership. -/
def demoProvider : AuthProvider :=
  { authenticate := fun token =>
      if token = "good" then
        .ok { principal_id := "alice", scopes := ["skill:analyze"] }
      else if token = "stale" then
        .ok { principal_id := "bob", is_expired := true }
      else
        .error "unknown token",
    authorize := fun ctx skill => .ok (ctx.scopes.contains ("skill:" ++ skill)) }

/-- Witness for C7: concrete evaluations through each major branch. -/
theorem verify_request_auth_cases_witness :
    verify_request_auth none none "analyze" none = .ok (none, none) ∧
    verify_request_auth (some demoProvider) none "analyze" none =
      .error "Authentication required but no credentials provided" ∧
    verify_request_auth (some demoProvider) (some "Token abc") "analyze" none =
      .error "Invalid authorization header format" ∧
    verify_request_auth (some demoProvider) (some "Bearer bad") "analyze" none =
      .error "Authentication failed: unknown token" ∧
    verify_request_auth (some demoProvider) (some "Bearer stale") "analyze" none =
      .error "Token expired" ∧
    verify_request_auth (some demoProvider) (some "Bearer good") "analyze" none =
      .ok (some { principal_id := "alice", scopes := ["skill:analyze"] },
           some { principal_id := "alice", scopes := ["skill:analyze"] }) :=
  ⟨verify_request_auth_cases.1 none "analyze" none,
   verify_request_auth_cases.2.1 demoProvider none "analyze" none rfl,
   verify_request_auth_cases.2.2.1 demoProvider "Token abc" "analyze" none
     (by decide) (by decide),
   verify_request_auth_cases.2.2.2.1 demoProvider "Bearer bad" "analyze" none
     "unknown token" (by decide) (by decide) rfl,
   verify_request_auth_cases.2.2.2.2.1 demoProvider "Bearer stale" "analyze" none
     { principal_id := "bob", is_expired := true } (by decide) (by decide)
     rfl rfl,
   verify_request_auth_cases.2.2.2.2.2.2.2.1 demoProvider "Bearer good" "analyze"
     none { principal_id := "alice", scopes := ["skill:analyze"] } (by decide)
     (by decide) rfl rfl (by decide) rfl⟩

/-! ## The canonical data model (spec-modelled) and the two `send_message` transports -/

namespace Canon

/-- Modelled from the spec: the canonical `Part` (one content fragment,
`{type, content}`) — the canonical data-model classes used by
`runtime_transport.py`, `http_transport.py` and `agent/agent.py` are not
under `src/`, only their callers are. -/
structure Part where
  type : String
  content : String
  deriving DecidableEq, Repr

/-- Modelled from the spec: the canonical `Message`
(`{id, role, parts, timestamp}`); id and timestamp generation is opaque. -/
structure Message where
  id : String := ""
  role : String
  parts : List Part
  timestamp : String := ""
  deriving DecidableEq, Repr

/-- Modelled from the spec: `Message.user(text)` — a user-role message with
one text part. -/
def Message.user (text : String) : Message :=
  { role := "user", parts := [{ type := "text", content := text }] }

/-- Modelled from the spec: `Message.agent(text)` — an agent-role message
with one text part. -/
def Message.agent (text : String) : Message :=
  { role := "agent", parts := [{ type := "text", content := text }] }

/-- Modelled from the spec: the canonical task states
`submitted → working → {completed, failed, cancelled}`. -/
inductive TaskState
  | submitted
  | working
  | completed
  | failed
  | cancelled
  deriving DecidableEq, Repr

/-- The three terminal states. -/
def TaskState.isTerminal : TaskState → Bool
  | .completed => true
  | .failed => true
  | .cancelled => true
  | _ => false

/-- Modelled from the spec: the canonical `Task`
(`{id, state, messages, artifacts, metadata, created_at}`). -/
structure Task where
  id : String := ""
  state : TaskState := .submitted
  messages : List Message
  artifacts : List String := []
  metadata : List (String × String) := []
  created_at : String := ""
  deriving DecidableEq, Repr

/-- Modelled from the spec: `Task.create(Message)` — state `submitted`,
messages `[Message]`. -/
def Task.create (m : Message) : Task :=
  { state := .submitted, messages := [m] }

/-- Modelled from the spec: `addMessage` — permitted in any non-terminal
state, appends the message; in a terminal state rejected with `TaskClosed`. -/
def Task.add_message (t : Task) (m : Message) : Except String Task :=
  if t.state.isTerminal then
    .error "TaskClosed: cannot append to a task in a terminal state"
  else
    .ok { t with messages := t.messages ++ [m] }

end Canon

/-- `AgentCard` of `core/agent_card.py` (the fields the runtime transport
reads). -/
structure AgentCard where
  name : String
  description : String := ""
  url : String
  version : String := "1.0.0"
  deriving DecidableEq, Repr

/-- The `Agent` of `agent/agent.py` as seen by `RuntimeTransport`: its card
and its `handle_task` behaviour. -/
structure Agent where
  card : AgentCard
  handle_task : Canon.Task → Canon.Task

/-- `RuntimeTransport` state (`transport/runtime_transport.py` line 17): the
`agents` dict. -/
structure RuntimeTransport where
  agents : StrDict Agent := []

/-- `RuntimeTransport.register_agent` (`runtime_transport.py` lines 19-26):
stores the agent under its card URL and again under its card name. -/
def RuntimeTransport.register_agent (s : RuntimeTransport) (a : Agent) :
    RuntimeTransport :=
  { agents := dictSet (dictSet s.agents a.card.url a) a.card.name a }

/-- `RuntimeTransport.unregister_agent` (`runtime_transport.py` lines 28-35):
deletes the single given key if present. -/
def RuntimeTransport.unregister_agent (s : RuntimeTransport) (agent_id : String) :
    RuntimeTransport :=
  { agents := dictErase s.agents agent_id }

/-- `RuntimeTransport.send_task` (`runtime_transport.py` lines 37-54): looks
the endpoint up by URL or name and invokes the agent handler, raising
`ValueError` when absent. -/
def RuntimeTransport.send_task (s : RuntimeTransport) (agent_url : String)
    (task : Canon.Task) : Except String Canon.Task :=
  match dictGet? s.agents agent_url with
  | none => .error s!"Agent not found: {agent_url}"
  | some a => .ok (a.handle_task task)

/-- `RuntimeTransport.send_message` (`runtime_transport.py` lines 56-74):
wraps the message in a fresh task, sends it, and returns the last message of
the result — or the fallback `Message.agent("No response")` when the result
task has no messages. -/
def RuntimeTransport.send_message (s : RuntimeTransport) (agent_url : String)
    (message : Canon.Message) : Except String Canon.Message :=
  match s.send_task agent_url (Canon.Task.create message) with
  | .error e => .error e
  | .ok result_task =>
      match result_task.messages.getLast? with
      | some m => .ok m
      | none => .ok (Canon.Message.agent "No response")

/-- `HTTPTransport.send_message` (`transport/http_transport.py` lines
95-102), as a function of the remote `send_task` round-trip behaviour: wraps
the message in a fresh task, sends it, returns the last message of the
result, and raises `RuntimeError("No response messages returned by agent")`
when the result task has no messages. -/
def http_send_message (send_task : Canon.Task → Except String Canon.Task)
    (message : Canon.Message) : Except String Canon.Message :=
  match send_task (Canon.Task.create message) with
  | .error e => .error e
  | .ok result_task =>
      match result_task.messages.getLast? with
      | some m => .ok m
      | none => .error "No response messages returned by agent"

/-- C9: `Task.create(m)` yields state `submitted` and messages `[m]` (so
messages is non-empty after creation), and `add_message` on a non-terminal
task appends exactly one element preserving the prior order. -/
theorem task_create_and_add_message :
    (∀ m : Canon.Message,
      (Canon.Task.create m).state = .submitted ∧ (Canon.Task.create m).messages = [m]) ∧
    (∀ (t : Canon.Task) (m : Canon.Message), t.state.isTerminal = false →
      t.add_message m = .ok { t with messages := t.messages ++ [m] }) := by
  constructor
  · intro m
    exact ⟨rfl, rfl⟩
  · intro t m h
    unfold Canon.Task.add_message
    rw [if_neg (by rw [h]; exact Bool.false_ne_true)]

/-- Witness for C9: concrete evaluation. -/
theorem task_create_and_add_message_witness :
    (Canon.Task.create (Canon.Message.user "hi")).messages = [Canon.Message.user "hi"] ∧
    Canon.Task.add_message (Canon.Task.create (Canon.Message.user "hi"))
        (Canon.Message.agent "yo") =
      .ok { Canon.Task.create (Canon.Message.user "hi") with
             messages := (Canon.Task.create (Canon.Message.user "hi")).messages
               ++ [Canon.Message.agent "yo"] } :=
  ⟨(task_create_and_add_message.1 (Canon.Message.user "hi")).2,
   task_create_and_add_message.2 (Canon.Task.create (Canon.Message.user "hi"))
     (Canon.Message.agent "yo") rfl⟩

/-- An agent whose handler strips all messages from the task. -/
def emptyAgent : Agent :=
  { card := { name := "empty", url := "http://empty" },
    handle_task := fun t => { t with messages := [] } }

/-- A runtime transport with `emptyAgent` registered. -/
def rtWithEmpty : RuntimeTransport := RuntimeTransport.register_agent {} emptyAgent

/-- C8 counterexample: on the in-process transport, `send_message` against a
handler returning a task with no messages does not fail — it returns the
fallback `Message.agent("No response")`, refuting the claim that every
backend fails with a NoResponse-typed error. -/
theorem send_message_no_response_counterexample :
    (emptyAgent.handle_task (Canon.Task.create (Canon.Message.user "hi"))).messages = [] ∧
    rtWithEmpty.send_message "http://empty" (Canon.Message.user "hi") =
      .ok (Canon.Message.agent "No response") := ⟨rfl, rfl⟩

/-- C8 (amended): both transports wrap the message in `Task.create` and
return the last message of the result task; when the result task has no
messages the HTTP transport fails with the NoResponse-typed
`RuntimeError("No response messages returned by agent")`, but the in-process
transport instead returns the fallback `Message.agent("No response")`. -/
theorem send_message_amended :
    (∀ (st : Canon.Task → Except String Canon.Task) (m : Canon.Message)
        (rt : Canon.Task),
      st (Canon.Task.create m) = .ok rt → rt.messages = [] →
      http_send_message st m = .error "No response messages returned by agent") ∧
    (∀ (st : Canon.Task → Except String Canon.Task) (m : Canon.Message)
        (rt : Canon.Task) (lastm : Canon.Message),
      st (Canon.Task.create m) = .ok rt → rt.messages.getLast? = some lastm →
      http_send_message st m = .ok lastm) ∧
    (∀ (s : RuntimeTransport) (url : String) (m : Canon.Message) (a : Agent),
      dictGet? s.agents url = some a →
      (a.handle_task (Canon.Task.create m)).messages = [] →
      s.send_message url m = .ok (Canon.Message.agent "No response")) ∧
    (∀ (s : RuntimeTransport) (url : String) (m : Canon.Message) (a : Agent)
        (lastm : Canon.Message),
      dictGet? s.agents url = some a →
      (a.handle_task (Canon.Task.create m)).messages.getLast? = some lastm →
      s.send_message url m = .ok lastm) := by
  refine ⟨?_, ?_, ?_, ?_⟩
  · intro st m rt hst hempty
    unfold http_send_message
    rw [hst]
    simp [hempty]
  · intro st m rt lastm hst hlast
    unfold http_send_message
    rw [hst]
    simp [hlast]
  · intro s url m a hget hempty
    unfold RuntimeTransport.send_message RuntimeTransport.send_task
    rw [hget]
    simp [hempty]
  · intro s url m a lastm hget hlast
    unfold RuntimeTransport.send_message RuntimeTransport.send_task
    rw [hget]
    simp [hlast]

/-- An agent whose handler appends an agent echo message. -/
def echoAgent : Agent :=
  { card := { name := "echo", url := "http://echo" },
    handle_task := fun t =>
      { t with messages := t.messages ++ [Canon.Message.agent "echo: hi"] } }

/-- A runtime transport with `echoAgent` registered. -/
def rtWithEcho : RuntimeTransport := RuntimeTransport.register_agent {} echoAgent

/-- Witness for C8 (amended): the HTTP transport errors on an empty result
and returns the last message otherwise; the in-process transport returns the
fallback on an empty result and the last message otherwise. -/
theorem send_message_amended_witness :
    http_send_message (fun t => .ok { t with messages := [] })
      (Canon.Message.user "hi") = .error "No response messages returned by agent" ∧
    http_send_message (fun t => .ok { t with
        messages := t.messages ++ [Canon.Message.agent "echo: hi"] })
      (Canon.Message.user "hi") = .ok (Canon.Message.agent "echo: hi") ∧
    rtWithEmpty.send_message "http://empty" (Canon.Message.user "hi") =
      .ok (Canon.Message.agent "No response") ∧
    rtWithEcho.send_message "echo" (Canon.Message.user "hi") =
      .ok (Canon.Message.agent "echo: hi") :=
  ⟨send_message_amended.1 (fun t => .ok { t with messages := [] })
     (Canon.Message.user "hi") _ rfl rfl,
   send_message_amended.2.1 (fun t => .ok { t with
       messages := t.messages ++ [Canon.Message.agent "echo: hi"] })
     (Canon.Message.user "hi") _ (Canon.Message.agent "echo: hi") rfl rfl,
   send_message_amended.2.2.1 rtWithEmpty "http://empty" (Canon.Message.user "hi")
     emptyAgent rfl rfl,
   send_message_amended.2.2.2 rtWithEcho "echo" (Canon.Message.user "hi")
     echoAgent (Canon.Message.agent "echo: hi") rfl rfl⟩

/-- C10: `register_agent` stores the agent under both its card URL and its
card name (two distinct keys when they differ); `unregister_agent` deletes
only the single given key; hence after registering and unregistering by URL,
`send_task` addressed to the name still resolves and invokes the handler —
and symmetrically for unregistering by name. -/
theorem runtime_register_two_keys (s : RuntimeTransport) (a : Agent)
    (task : Canon.Task) (h : a.card.name ≠ a.card.url) :
    dictGet? (s.register_agent a).agents a.card.url = some a ∧
    dictGet? (s.register_agent a).agents a.card.name = some a ∧
    (∀ (s' : RuntimeTransport) (agent_id k : String), k ≠ agent_id →
      dictGet? (s'.unregister_agent agent_id).agents k = dictGet? s'.agents k) ∧
    ((s.register_agent a).unregister_agent a.card.url).send_task a.card.name task =
      .ok (a.handle_task task) ∧
    ((s.register_agent a).unregister_agent a.card.name).send_task a.card.url task =
      .ok (a.handle_task task) := by
  have hurl : dictGet? (s.register_agent a).agents a.card.url = some a := by
    unfold RuntimeTransport.register_agent
    rw [dictGet?_dictSet_ne _ _ _ _ (Ne.symm h), dictGet?_dictSet_self]
  have hname : dictGet? (s.register_agent a).agents a.card.name = some a := by
    unfold RuntimeTransport.register_agent
    rw [dictGet?_dictSet_self]
  refine ⟨hurl, hname, ?_, ?_, ?_⟩
  · intro s' agent_id k hk
    unfold RuntimeTransport.unregister_agent
    exact dictGet?_dictErase_ne s'.agents agent_id k hk
  · unfold RuntimeTransport.send_task RuntimeTransport.unregister_agent
    rw [dictGet?_dictErase_ne _ _ _ h, hname]
  · unfold RuntimeTransport.send_task RuntimeTransport.unregister_agent
    rw [dictGet?_dictErase_ne _ _ _ (Ne.symm h), hurl]

/-- Witness for C10: after registering `echoAgent` and unregistering its
URL, sending by name still invokes the handler. -/
theorem runtime_register_two_keys_witness :
    ((RuntimeTransport.register_agent {} echoAgent).unregister_agent
        "http://echo").send_task "echo" (Canon.Task.create (Canon.Message.user "x")) =
      .ok (echoAgent.handle_task (Canon.Task.create (Canon.Message.user "x"))) :=
  (runtime_register_two_keys {} echoAgent
    (Canon.Task.create (Canon.Message.user "x")) (by decide)).2.2.2.1

end Protolink
